import Mathlib

/-!
Shallow embedding of the IBC channel packet lifecycle engine
(x/ibc/04-channel/keeper/packet.go and x/ibc/04-channel/types/channel.go),
together with theorems checking the specification's claims about it.

Stores are modelled as association lists, machine uint64 counters as Nat
(no overflow is reachable in any claim: counters only ever increase by one),
byte strings as List Nat, and the external collaborators (connection keeper,
client keeper, proof verification) as an environment record of functions.
-/

namespace IBC

/-- Error kinds surfaced by the lifecycle operations.  Each constructor stands
for one registered sdk error of the source (message strings and wrapping are
dropped; wrapping preserves the kind). -/
inductive Err where
  | channelNotFound
  | invalidChannelState
  | invalidPacket
  | packetTimeout
  | sequenceSendNotFound
  | sequenceReceiveNotFound
  | connectionNotFound
  | invalidConnectionState
  | consensusStateNotFound
  | verificationFailed
  | invalidChannel
  | invalidCounterparty
deriving DecidableEq

/-- Fatal (panic) outcomes, kept separate from the recoverable error kinds. -/
inductive PanicKind where
  | invalidChannelOrdering (ordering : Nat)
  | nilAcknowledgement
deriving DecidableEq

/-- Result of a lifecycle operation: normal return value, recoverable error,
or a Go panic. -/
inductive Outcome (α : Type) where
  | ok (a : α)
  | err (e : Err)
  | panicked (p : PanicKind)
deriving DecidableEq

/-- Modelled from the spec: channel state enum (state is one of INIT, TRYOPEN,
OPEN, CLOSED); the concrete enum file is not part of the sources, only the
constants OPEN and CLOSED are compared against in packet.go. -/
def INIT : Nat := 1

def TRYOPEN : Nat := 2

def OPEN : Nat := 3

def CLOSED : Nat := 4

/-- Modelled from the spec: channel ordering enum with values UNORDERED and
ORDERED; any other numeric value is outside the enum. -/
def UNORDERED : Nat := 1

def ORDERED : Nat := 2

/-- Modelled from the spec: the connection state compared against in
packet.go; UNINITIALIZED is the zero value, OPEN the fully opened state. -/
def ConnUNINITIALIZED : Nat := 0

def ConnOPEN : Nat := 3

/-- Modelled from the spec: the String method of the channel state enum,
empty exactly outside the defined enum values. -/
def stateString (s : Nat) : String :=
  if s = INIT then "INIT"
  else if s = TRYOPEN then "TRYOPEN"
  else if s = OPEN then "OPEN"
  else if s = CLOSED then "CLOSED"
  else ""

/-- Modelled from the spec: the String method of the ordering enum, empty
exactly outside the defined enum values UNORDERED and ORDERED. -/
def orderString (o : Nat) : String :=
  if o = UNORDERED then "UNORDERED"
  else if o = ORDERED then "ORDERED"
  else ""

/-- Counterparty endpoint of a channel (types/channel.go). -/
structure Counterparty where
  portID : String
  channelID : String
deriving DecidableEq

/-- Channel record (types/channel.go). -/
structure Channel where
  state : Nat
  ordering : Nat
  counterparty : Counterparty
  connectionHops : List String
  version : String
deriving DecidableEq

/-- Connection end as read by the engine (external collaborator). -/
structure ConnectionEnd where
  state : Nat
  clientID : String
deriving DecidableEq

/-- Client state as read by the engine (external collaborator). -/
structure ClientState where
  latestHeight : Nat
deriving DecidableEq

/-- A packet as seen through the PacketI interface accessors.  The
validBasic field records the result of the packet's own ValidateBasic
interface method (implementation-specific, outside the sources). -/
structure Packet where
  sequence : Nat
  sourcePort : String
  sourceChannel : String
  destinationPort : String
  destinationChannel : String
  data : List Nat
  timeoutHeight : Nat
  validBasic : Option Err
deriving DecidableEq

/-- Association list lookup. -/
def alookup {α β : Type} [DecidableEq α] : List (α × β) → α → Option β
  | [], _ => none
  | (k, v) :: rest, a => if k = a then some v else alookup rest a

/-- Association list deletion of every binding of a key. -/
def aerase {α β : Type} [DecidableEq α] : List (α × β) → α → List (α × β)
  | [], _ => []
  | (k, v) :: rest, a => if k = a then aerase rest a else (k, v) :: aerase rest a

/-- Association list overwrite of a key's binding. -/
def ainsert {α β : Type} [DecidableEq α] (l : List (α × β)) (a : α) (b : β) :
    List (α × β) :=
  (a, b) :: aerase l a

/-- The keeper-visible persistent state: Channel Registry, the send and
receive sequence counters, and the two commitment stores.  Modelled from the
spec contracts of sections 4.1 to 4.3 (plain keyed stores); the keeper
accessor bodies are not among the sources. -/
structure KState where
  channels : List ((String × String) × Channel)
  nextSeqSend : List ((String × String) × Nat)
  nextSeqRecv : List ((String × String) × Nat)
  packetCommitments : List ((String × String × Nat) × List Nat)
  ackCommitments : List ((String × String × Nat) × List Nat)
deriving DecidableEq

/-- External read-only collaborators: connection lookup, client lookup,
current block height, and the three proof-verification capabilities (true
means the proof verified). -/
structure Env where
  connections : String → Option ConnectionEnd
  clientStates : String → Option ClientState
  blockHeight : Nat
  verifyPacketCommitment :
    ConnectionEnd → Nat → List Nat → String → String → Nat → List Nat → Bool
  verifyPacketAcknowledgement :
    ConnectionEnd → Nat → List Nat → String → String → Nat → List Nat → Bool
  verifyNextSequenceRecv :
    ConnectionEnd → Nat → List Nat → String → String → Nat → Bool

/-- Keeper accessor SetNextSequenceSend, modelled from the spec contract of
section 4.2 (plain keyed store write). -/
def setNextSequenceSend (s : KState) (port channel : String) (seq : Nat) :
    KState :=
  { s with nextSeqSend := ainsert s.nextSeqSend (port, channel) seq }

/-- Keeper accessor SetNextSequenceRecv, modelled from the spec contract of
section 4.2. -/
def setNextSequenceRecv (s : KState) (port channel : String) (seq : Nat) :
    KState :=
  { s with nextSeqRecv := ainsert s.nextSeqRecv (port, channel) seq }

/-- Keeper accessor SetPacketCommitment, modelled from the spec contract of
section 4.3. -/
def setPacketCommitment (s : KState) (port channel : String) (seq : Nat)
    (digest : List Nat) : KState :=
  { s with packetCommitments := ainsert s.packetCommitments (port, channel, seq) digest }

/-- Keeper accessor SetPacketAcknowledgement, modelled from the spec contract
of section 4.3. -/
def setPacketAcknowledgement (s : KState) (port channel : String) (seq : Nat)
    (digest : List Nat) : KState :=
  { s with ackCommitments := ainsert s.ackCommitments (port, channel, seq) digest }

/-- Keeper accessor deletePacketCommitment, modelled from the spec contract
of section 4.3. -/
def deletePacketCommitment (s : KState) (port channel : String) (seq : Nat) :
    KState :=
  { s with packetCommitments := aerase s.packetCommitments (port, channel, seq) }

/-- Modelled from the spec: types.CommitPacket, a deterministic
content-addressed digest of the packet data (the digest of a cryptographic
hash is never the empty byte string; here a tag byte keeps the digest
injective and nonempty). -/
def CommitPacket (data : List Nat) : List Nat := 0 :: data

/-- Modelled from the spec: types.CommitAcknowledgement, the deterministic
digest of an acknowledgement payload, modelled total over the optional
payload. -/
def CommitAcknowledgement : Option (List Nat) → List Nat
  | none => [1]
  | some a => 1 :: a

/-- First connection hop: the source indexes GetConnectionHops()[0]; for
well-formed channels connection_hops has exactly length one. -/
def hop0 : List String → String
  | [] => ""
  | h :: _ => h

/-- SendPacket (packet.go lines 19 to 121). -/
def sendPacket (env : Env) (s : KState) (p : Packet) : Outcome Unit × KState :=
  match p.validBasic with
  | some e => (.err e, s)
  | none =>
    match alookup s.channels (p.sourcePort, p.sourceChannel) with
    | none => (.err .channelNotFound, s)
    | some channel =>
      if channel.state = CLOSED then (.err .invalidChannelState, s)
      else if p.destinationPort ≠ channel.counterparty.portID then
        (.err .invalidPacket, s)
      else if p.destinationChannel ≠ channel.counterparty.channelID then
        (.err .invalidPacket, s)
      else
        match env.connections (hop0 channel.connectionHops) with
        | none => (.err .connectionNotFound, s)
        | some connectionEnd =>
          if connectionEnd.state = ConnUNINITIALIZED then
            (.err .invalidConnectionState, s)
          else
            match env.clientStates connectionEnd.clientID with
            | none => (.err .consensusStateNotFound, s)
            | some clientState =>
              if clientState.latestHeight ≥ p.timeoutHeight then
                (.err .packetTimeout, s)
              else
                match alookup s.nextSeqSend (p.sourcePort, p.sourceChannel) with
                | none => (.err .sequenceSendNotFound, s)
                | some nextSequenceSend =>
                  if p.sequence ≠ nextSequenceSend then (.err .invalidPacket, s)
                  else
                    (.ok (), setPacketCommitment
                      (setNextSequenceSend s p.sourcePort p.sourceChannel
                        (nextSequenceSend + 1))
                      p.sourcePort p.sourceChannel p.sequence
                      (CommitPacket p.data))

/-- RecvPacket (packet.go lines 125 to 187). -/
def recvPacket (env : Env) (s : KState) (p : Packet) (proof : List Nat)
    (proofHeight : Nat) : Outcome Packet × KState :=
  match alookup s.channels (p.destinationPort, p.destinationChannel) with
  | none => (.err .channelNotFound, s)
  | some channel =>
    if channel.state ≠ OPEN then (.err .invalidChannelState, s)
    else if p.sourcePort ≠ channel.counterparty.portID then
      (.err .invalidPacket, s)
    else if p.sourceChannel ≠ channel.counterparty.channelID then
      (.err .invalidPacket, s)
    else
      match env.connections (hop0 channel.connectionHops) with
      | none => (.err .connectionNotFound, s)
      | some connectionEnd =>
        if connectionEnd.state ≠ ConnOPEN then (.err .invalidConnectionState, s)
        else if env.blockHeight ≥ p.timeoutHeight then (.err .packetTimeout, s)
        else if env.verifyPacketCommitment connectionEnd proofHeight proof
            p.sourcePort p.sourceChannel p.sequence (CommitPacket p.data) then
          (.ok p, s)
        else (.err .verificationFailed, s)

/-- The acknowledgement write of PacketExecuted (packet.go lines 210 to 215):
performed when an acknowledgement was produced or the channel is UNORDERED. -/
def execWriteAck (s : KState) (p : Packet) (a : Option (List Nat))
    (channel : Channel) : KState :=
  if a.isSome ∨ channel.ordering = UNORDERED then
    setPacketAcknowledgement s p.destinationPort p.destinationChannel
      p.sequence (CommitAcknowledgement a)
  else s

/-- PacketExecuted (packet.go lines 192 to 238).  Note that the
acknowledgement commitment is written before the ORDERED sequence checks. -/
def packetExecuted (s : KState) (p : Packet) (a : Option (List Nat)) :
    Outcome Unit × KState :=
  match alookup s.channels (p.destinationPort, p.destinationChannel) with
  | none => (.err .channelNotFound, s)
  | some channel =>
    if channel.state ≠ OPEN then (.err .invalidChannelState, s)
    else
      if channel.ordering = ORDERED then
        match alookup (execWriteAck s p a channel).nextSeqRecv
            (p.destinationPort, p.destinationChannel) with
        | none => (.err .sequenceReceiveNotFound, execWriteAck s p a channel)
        | some nextSequenceRecv =>
          if p.sequence ≠ nextSequenceRecv then
            (.err .invalidPacket, execWriteAck s p a channel)
          else
            (.ok (), setNextSequenceRecv (execWriteAck s p a channel)
              p.destinationPort p.destinationChannel (nextSequenceRecv + 1))
      else (.ok (), execWriteAck s p a channel)

/-- AcknowledgePacket (packet.go lines 245 to 309).  A nil acknowledgement
interface value makes the GetBytes call of line 303 panic. -/
def acknowledgePacket (env : Env) (s : KState) (p : Packet)
    (acknowledgement : Option (List Nat)) (proof : List Nat)
    (proofHeight : Nat) : Outcome Packet × KState :=
  match alookup s.channels (p.sourcePort, p.sourceChannel) with
  | none => (.err .channelNotFound, s)
  | some channel =>
    if channel.state ≠ OPEN then (.err .invalidChannelState, s)
    else if p.destinationPort ≠ channel.counterparty.portID then
      (.err .invalidPacket, s)
    else if p.destinationChannel ≠ channel.counterparty.channelID then
      (.err .invalidPacket, s)
    else
      match env.connections (hop0 channel.connectionHops) with
      | none => (.err .connectionNotFound, s)
      | some connectionEnd =>
        if connectionEnd.state ≠ ConnOPEN then (.err .invalidConnectionState, s)
        else if (alookup s.packetCommitments
            (p.sourcePort, p.sourceChannel, p.sequence)).getD []
            ≠ CommitPacket p.data then
          (.err .invalidPacket, s)
        else
          match acknowledgement with
          | none => (.panicked .nilAcknowledgement, s)
          | some ackBytes =>
            if env.verifyPacketAcknowledgement connectionEnd proofHeight proof
                p.destinationPort p.destinationChannel p.sequence ackBytes then
              (.ok p, s)
            else (.err .verificationFailed, s)

/-- CleanupPacket (packet.go lines 321 to 407). -/
def cleanupPacket (env : Env) (s : KState) (p : Packet) (proof : List Nat)
    (proofHeight nextSequenceRecv : Nat) (acknowledgement : List Nat) :
    Outcome Packet × KState :=
  match alookup s.channels (p.sourcePort, p.sourceChannel) with
  | none => (.err .channelNotFound, s)
  | some channel =>
    if channel.state ≠ OPEN then (.err .invalidChannelState, s)
    else if p.destinationPort ≠ channel.counterparty.portID then
      (.err .invalidPacket, s)
    else if p.destinationChannel ≠ channel.counterparty.channelID then
      (.err .invalidPacket, s)
    else
      match env.connections (hop0 channel.connectionHops) with
      | none => (.err .connectionNotFound, s)
      | some connectionEnd =>
        if nextSequenceRecv ≤ p.sequence then (.err .invalidPacket, s)
        else if (alookup s.packetCommitments
            (p.sourcePort, p.sourceChannel, p.sequence)).getD []
            ≠ CommitPacket p.data then
          (.err .invalidPacket, s)
        else
          if channel.ordering = ORDERED then
            if env.verifyNextSequenceRecv connectionEnd proofHeight proof
                p.destinationPort p.destinationChannel nextSequenceRecv then
              (.ok p, deletePacketCommitment s p.sourcePort p.sourceChannel
                p.sequence)
            else (.err .verificationFailed, s)
          else if channel.ordering = UNORDERED then
            if env.verifyPacketAcknowledgement connectionEnd proofHeight proof
                p.destinationPort p.destinationChannel p.sequence
                acknowledgement then
              (.ok p, deletePacketCommitment s p.sourcePort p.sourceChannel
                p.sequence)
            else (.err .verificationFailed, s)
          else (.panicked (.invalidChannelOrdering channel.ordering), s)

/-- Modelled from the spec: the host identifier grammar (owned by the host
collaborator, whose validators are not among the sources), modelled as
nonemptiness. -/
def validIdentifier (s : String) : Bool := !s.isEmpty

/-- Counterparty.ValidateBasic (types/channel.go lines 63 to 77). -/
def counterpartyValidateBasic (c : Counterparty) : Option Err :=
  if ¬ validIdentifier c.portID then some .invalidCounterparty
  else if ¬ validIdentifier c.channelID then some .invalidCounterparty
  else none

/-- Channel.ValidateBasic (types/channel.go lines 26 to 52). -/
def channelValidateBasic (ch : Channel) : Option Err :=
  if stateString ch.state = "" then some .invalidChannel
  else if orderString ch.ordering = "" then some .invalidChannel
  else if ch.connectionHops.length ≠ 1 then some .invalidChannel
  else if ¬ validIdentifier (hop0 ch.connectionHops) then some .invalidChannel
  else if ch.version.trim = "" then some .invalidChannel
  else counterpartyValidateBasic ch.counterparty

/-- Modelled from the spec: the ten ordered Send preconditions of section
4.4, written down from the spec text (first failure wins, with the spec's
error kind for each), to be compared against the source translation
sendPacket. -/
def sendChecksSpec (env : Env) (s : KState) (p : Packet) : Option Err :=
  match p.validBasic with
  | some e => some e
  | none =>
    match alookup s.channels (p.sourcePort, p.sourceChannel) with
    | none => some .channelNotFound
    | some channel =>
      if channel.state = CLOSED then some .invalidChannelState
      else if p.destinationPort ≠ channel.counterparty.portID
          ∨ p.destinationChannel ≠ channel.counterparty.channelID then
        some .invalidPacket
      else
        match env.connections (hop0 channel.connectionHops) with
        | none => some .connectionNotFound
        | some connectionEnd =>
          if connectionEnd.state = ConnUNINITIALIZED then
            some .invalidConnectionState
          else
            match env.clientStates connectionEnd.clientID with
            | none => some .consensusStateNotFound
            | some clientState =>
              if clientState.latestHeight ≥ p.timeoutHeight then
                some .packetTimeout
              else
                match alookup s.nextSeqSend (p.sourcePort, p.sourceChannel) with
                | none => some .sequenceSendNotFound
                | some n =>
                  if p.sequence ≠ n then some .invalidPacket else none

theorem alookup_ainsert_self {α β : Type} [DecidableEq α]
    (l : List (α × β)) (a : α) (b : β) : alookup (ainsert l a b) a = some b := by
  simp [ainsert, alookup]

theorem alookup_aerase_self {α β : Type} [DecidableEq α]
    (l : List (α × β)) (a : α) : alookup (aerase l a) a = none := by
  induction l with
  | nil => rfl
  | cons hd tl ih =>
    obtain ⟨k, v⟩ := hd
    by_cases h : k = a <;> simp [aerase, h, alookup, ih]

theorem commitPacket_ne_nil (d : List Nat) : CommitPacket d ≠ [] := by
  simp [CommitPacket]

theorem send_err_frame (env : Env) (s : KState) (p : Packet) (e : Err)
    (s2 : KState) (h : sendPacket env s p = (Outcome.err e, s2)) : s2 = s := by
  unfold sendPacket at h
  repeat' split at h
  all_goals injection h with h1 h2
  all_goals try simp at h1
  all_goals exact h2.symm

theorem recv_state_frame (env : Env) (s : KState) (p : Packet) (pf : List Nat)
    (ph : Nat) : (recvPacket env s p pf ph).2 = s := by
  unfold recvPacket
  repeat' split
  all_goals rfl

theorem ack_state_frame (env : Env) (s : KState) (p : Packet)
    (a : Option (List Nat)) (pf : List Nat) (ph : Nat) :
    (acknowledgePacket env s p a pf ph).2 = s := by
  unfold acknowledgePacket
  repeat' split
  all_goals rfl

theorem execWriteAck_channels (s : KState) (p : Packet) (a : Option (List Nat))
    (channel : Channel) : (execWriteAck s p a channel).channels = s.channels := by
  unfold execWriteAck setPacketAcknowledgement
  split <;> rfl

theorem execWriteAck_nextSeqSend (s : KState) (p : Packet)
    (a : Option (List Nat)) (channel : Channel) :
    (execWriteAck s p a channel).nextSeqSend = s.nextSeqSend := by
  unfold execWriteAck setPacketAcknowledgement
  split <;> rfl

theorem execWriteAck_nextSeqRecv (s : KState) (p : Packet)
    (a : Option (List Nat)) (channel : Channel) :
    (execWriteAck s p a channel).nextSeqRecv = s.nextSeqRecv := by
  unfold execWriteAck setPacketAcknowledgement
  split <;> rfl

theorem execWriteAck_packetCommitments (s : KState) (p : Packet)
    (a : Option (List Nat)) (channel : Channel) :
    (execWriteAck s p a channel).packetCommitments = s.packetCommitments := by
  unfold execWriteAck setPacketAcknowledgement
  split <;> rfl

theorem exec_err_frame (s : KState) (p : Packet) (a : Option (List Nat))
    (e : Err) (s2 : KState) (h : packetExecuted s p a = (Outcome.err e, s2)) :
    s2.channels = s.channels ∧ s2.nextSeqSend = s.nextSeqSend ∧
    s2.nextSeqRecv = s.nextSeqRecv ∧ s2.packetCommitments = s.packetCommitments := by
  unfold packetExecuted at h
  repeat' split at h
  all_goals injection h with h1 h2
  all_goals try simp at h1
  all_goals subst h2
  all_goals first
    | exact ⟨rfl, rfl, rfl, rfl⟩
    | exact ⟨execWriteAck_channels .., execWriteAck_nextSeqSend ..,
        execWriteAck_nextSeqRecv .., execWriteAck_packetCommitments ..⟩

theorem cleanup_err_frame (env : Env) (s : KState) (p : Packet) (pf : List Nat)
    (ph nsr : Nat) (ack : List Nat) (e : Err) (s2 : KState)
    (h : cleanupPacket env s p pf ph nsr ack = (Outcome.err e, s2)) : s2 = s := by
  unfold cleanupPacket at h
  repeat' split at h
  all_goals injection h with h1 h2
  all_goals try simp at h1
  all_goals exact h2.symm

theorem send_ok_state (env : Env) (s : KState) (p : Packet) (s2 : KState)
    (h : sendPacket env s p = (Outcome.ok (), s2)) :
    alookup s.nextSeqSend (p.sourcePort, p.sourceChannel) = some p.sequence ∧
    s2 = setPacketCommitment
      (setNextSequenceSend s p.sourcePort p.sourceChannel (p.sequence + 1))
      p.sourcePort p.sourceChannel p.sequence (CommitPacket p.data) := by
  unfold sendPacket at h
  repeat' split at h
  all_goals injection h with h1 h2
  all_goals try simp at h1
  rename_i n heq hn
  simp at hn
  subst hn
  exact ⟨heq, h2.symm⟩

theorem exec_ok_ordered_spec (s : KState) (p : Packet) (a : Option (List Nat))
    (ch : Channel) (s2 : KState)
    (hch : alookup s.channels (p.destinationPort, p.destinationChannel) = some ch)
    (hord : ch.ordering = ORDERED)
    (h : packetExecuted s p a = (Outcome.ok (), s2)) :
    alookup s.nextSeqRecv (p.destinationPort, p.destinationChannel)
      = some p.sequence ∧
    alookup s2.nextSeqRecv (p.destinationPort, p.destinationChannel)
      = some (p.sequence + 1) := by
  unfold packetExecuted at h
  repeat' split at h
  all_goals injection h with h1 h2
  all_goals try simp at h1
  all_goals subst h2
  all_goals simp_all [execWriteAck_nextSeqRecv, setNextSequenceRecv,
    alookup_ainsert_self]

theorem cleanup_ok_state (env : Env) (s : KState) (p : Packet) (pf : List Nat)
    (ph nsr : Nat) (ack : List Nat) (q : Packet) (s1 : KState)
    (h : cleanupPacket env s p pf ph nsr ack = (Outcome.ok q, s1)) :
    q = p ∧
    s1 = deletePacketCommitment s p.sourcePort p.sourceChannel p.sequence := by
  unfold cleanupPacket at h
  repeat' split at h
  all_goals injection h with h1 h2
  all_goals try simp at h1
  all_goals exact ⟨h1.symm, h2.symm⟩

theorem deletePacketCommitment_channels (s : KState) (port channel : String)
    (seq : Nat) :
    (deletePacketCommitment s port channel seq).channels = s.channels := rfl

theorem deletePacketCommitment_nextSeqSend (s : KState) (port channel : String)
    (seq : Nat) :
    (deletePacketCommitment s port channel seq).nextSeqSend = s.nextSeqSend := rfl

theorem deletePacketCommitment_nextSeqRecv (s : KState) (port channel : String)
    (seq : Nat) :
    (deletePacketCommitment s port channel seq).nextSeqRecv = s.nextSeqRecv := rfl

theorem deletePacketCommitment_ackCommitments (s : KState)
    (port channel : String) (seq : Nat) :
    (deletePacketCommitment s port channel seq).ackCommitments
      = s.ackCommitments := rfl

theorem send_nextSeqRecv_frame (env : Env) (s : KState) (p : Packet) :
    (sendPacket env s p).2.nextSeqRecv = s.nextSeqRecv := by
  unfold sendPacket
  repeat' split
  all_goals rfl

theorem cleanup_nextSeqRecv_frame (env : Env) (s : KState) (p : Packet)
    (pf : List Nat) (ph nsr : Nat) (ack : List Nat) :
    (cleanupPacket env s p pf ph nsr ack).2.nextSeqRecv = s.nextSeqRecv := by
  unfold cleanupPacket
  repeat' split
  all_goals rfl

theorem orderString_ne_empty (o : Nat) (h : orderString o ≠ "") :
    o = UNORDERED ∨ o = ORDERED := by
  by_cases h1 : o = UNORDERED
  · exact Or.inl h1
  · by_cases h2 : o = ORDERED
    · exact Or.inr h2
    · exact absurd (by simp [orderString, h1, h2]) h

/-- Concrete connection end used by the witnesses. -/
def connW : ConnectionEnd := { state := ConnOPEN, clientID := "client" }

/-- Concrete channel used by the witnesses: OPEN, ORDERED, counterparty
(portB, chanB), a single hop to connection conn. -/
def chanW : Channel :=
  { state := OPEN, ordering := ORDERED,
    counterparty := { portID := "portB", channelID := "chanB" },
    connectionHops := ["conn"], version := "v1" }

/-- Concrete environment used by the witnesses: the connection and client
exist, every proof verifies, current height 5, client latest height 5. -/
def envW : Env :=
  { connections := fun id => if id = "conn" then some connW else none,
    clientStates := fun id =>
      if id = "client" then some { latestHeight := 5 } else none,
    blockHeight := 5,
    verifyPacketCommitment := fun _ _ _ _ _ _ _ => true,
    verifyPacketAcknowledgement := fun _ _ _ _ _ _ _ => true,
    verifyNextSequenceRecv := fun _ _ _ _ _ _ => true }

/-- Concrete packet used by the witnesses. -/
def pW : Packet :=
  { sequence := 1, sourcePort := "portA", sourceChannel := "chanA",
    destinationPort := "portB", destinationChannel := "chanB",
    data := [7, 8], timeoutHeight := 10, validBasic := none }

/-- Send-side state: channel registered at the source key, next-send 1. -/
def sW : KState :=
  { channels := [(("portA", "chanA"), chanW)],
    nextSeqSend := [(("portA", "chanA"), 1)],
    nextSeqRecv := [], packetCommitments := [], ackCommitments := [] }

/-- Expected state after the witness send. -/
def sW2 : KState :=
  setPacketCommitment (setNextSequenceSend sW "portA" "chanA" 2)
    "portA" "chanA" 1 (CommitPacket [7, 8])

/-- Receive-side state whose next-receive counter (5) does not match the
witness packet sequence (1). -/
def sExe : KState :=
  { channels := [(("portB", "chanB"), chanW)],
    nextSeqSend := [], nextSeqRecv := [(("portB", "chanB"), 5)],
    packetCommitments := [], ackCommitments := [] }

/-- State sExe after the acknowledgement write of a failing PacketExecuted. -/
def sExe2 : KState :=
  setPacketAcknowledgement sExe "portB" "chanB" 1 (CommitAcknowledgement (some [1]))

/-- Receive-side state whose next-receive counter matches the witness
packet. -/
def sExeOk : KState := { sExe with nextSeqRecv := [(("portB", "chanB"), 1)] }

/-- Expected state after the witness PacketExecuted success. -/
def sExeOk2 : KState :=
  setNextSequenceRecv
    (setPacketAcknowledgement sExeOk "portB" "chanB" 1
      (CommitAcknowledgement (some [1])))
    "portB" "chanB" 2

/-- Send-side state holding the commitment of the witness packet. -/
def sAck : KState :=
  { sW with packetCommitments := [(("portA", "chanA", 1), CommitPacket [7, 8])] }

/-- Channel whose ordering value lies outside the enum. -/
def chanBad : Channel := { chanW with ordering := 0 }

/-- Send-side state holding the out-of-enum channel and the commitment. -/
def sBad : KState := { sAck with channels := [(("portA", "chanA"), chanBad)] }

/-- Packet that is already timed out against envW (client height 5). -/
def pLate : Packet := { pW with timeoutHeight := 3 }

/-- Claim C1 counterexample: a PacketExecuted call on an ORDERED channel that
fails the next-receive sequence check returns an error, yet the state is not
as it was before the call; the acknowledgement commitment has been written. -/
theorem C1_counterexample :
    (packetExecuted sExe pW (some [1])).1 = Outcome.err Err.invalidPacket ∧
    (packetExecuted sExe pW (some [1])).2 ≠ sExe ∧
    alookup (packetExecuted sExe pW (some [1])).2.ackCommitments
      ("portB", "chanB", 1) = some (CommitAcknowledgement (some [1])) := by
  decide

/-- Claim C1 (amended): atomicity on failure holds for SendPacket,
RecvPacket, AcknowledgePacket and CleanupPacket, whose errors leave the
state exactly as before; a failing PacketExecuted leaves the Channel
Registry, both sequence counters and the send-side commitment store
unchanged, but it may already have written an acknowledgement commitment
because that write precedes the ORDERED sequence checks. -/
theorem C1_atomicity_amended :
    (∀ env s p e s2, sendPacket env s p = (Outcome.err e, s2) → s2 = s) ∧
    (∀ env s p pf ph e s2,
      recvPacket env s p pf ph = (Outcome.err e, s2) → s2 = s) ∧
    (∀ env s p a pf ph e s2,
      acknowledgePacket env s p a pf ph = (Outcome.err e, s2) → s2 = s) ∧
    (∀ env s p pf ph nsr ack e s2,
      cleanupPacket env s p pf ph nsr ack = (Outcome.err e, s2) → s2 = s) ∧
    (∀ s p a e s2, packetExecuted s p a = (Outcome.err e, s2) →
      s2.channels = s.channels ∧ s2.nextSeqSend = s.nextSeqSend ∧
      s2.nextSeqRecv = s.nextSeqRecv ∧
      s2.packetCommitments = s.packetCommitments) := by
  refine ⟨?_, ?_, ?_, ?_, ?_⟩
  · intro env s p e s2 h
    exact send_err_frame env s p e s2 h
  · intro env s p pf ph e s2 h
    have hf := recv_state_frame env s p pf ph
    rw [h] at hf
    exact hf
  · intro env s p a pf ph e s2 h
    have hf := ack_state_frame env s p a pf ph
    rw [h] at hf
    exact hf
  · intro env s p pf ph nsr ack e s2 h
    exact cleanup_err_frame env s p pf ph nsr ack e s2 h
  · intro s p a e s2 h
    exact exec_err_frame s p a e s2 h

/-- Witness for the amended C1 theorem: the PacketExecuted conjunct at a
concrete failing call on an ORDERED channel. -/
theorem C1_witness :
    sExe2.channels = sExe.channels ∧ sExe2.nextSeqSend = sExe.nextSeqSend ∧
    sExe2.nextSeqRecv = sExe.nextSeqRecv ∧
    sExe2.packetCommitments = sExe.packetCommitments :=
  C1_atomicity_amended.2.2.2.2 sExe pW (some [1]) Err.invalidPacket sExe2
    (by decide)

/-- Claim C2 (confirmed): SendPacket checks its ten preconditions in exactly
the spec order with first failure winning and the spec's error kind for
each; sendChecksSpec is that ordered list written from the spec, and the
source translation returns exactly its first failure (or succeeds). -/
theorem C2_send_check_order (env : Env) (s : KState) (p : Packet) :
    (sendPacket env s p).1 =
      match sendChecksSpec env s p with
      | some e => Outcome.err e
      | none => Outcome.ok () := by
  unfold sendPacket sendChecksSpec
  repeat' split
  all_goals simp_all

/-- Claim C3 (confirmed): a successful SendPacket requires the packet's
sequence to equal the next-send counter, increments the counter by one and
writes the commitment digest of the packet data; with all earlier checks
passing, a sequence mismatch fails with InvalidPacket leaving the state
unchanged; two consecutive successful sends on the same channel consume
consecutive sequence numbers. -/
theorem C3_send_monotonicity :
    (∀ env s p s2, sendPacket env s p = (Outcome.ok (), s2) →
      alookup s.nextSeqSend (p.sourcePort, p.sourceChannel) = some p.sequence ∧
      alookup s2.nextSeqSend (p.sourcePort, p.sourceChannel)
        = some (p.sequence + 1) ∧
      alookup s2.packetCommitments (p.sourcePort, p.sourceChannel, p.sequence)
        = some (CommitPacket p.data)) ∧
    (∀ env s p ch conn cs n,
      p.validBasic = none →
      alookup s.channels (p.sourcePort, p.sourceChannel) = some ch →
      ch.state ≠ CLOSED →
      p.destinationPort = ch.counterparty.portID →
      p.destinationChannel = ch.counterparty.channelID →
      env.connections (hop0 ch.connectionHops) = some conn →
      conn.state ≠ ConnUNINITIALIZED →
      env.clientStates conn.clientID = some cs →
      cs.latestHeight < p.timeoutHeight →
      alookup s.nextSeqSend (p.sourcePort, p.sourceChannel) = some n →
      p.sequence ≠ n →
      sendPacket env s p = (Outcome.err Err.invalidPacket, s)) ∧
    (∀ env env2 s p q s1 s2,
      q.sourcePort = p.sourcePort → q.sourceChannel = p.sourceChannel →
      sendPacket env s p = (Outcome.ok (), s1) →
      sendPacket env2 s1 q = (Outcome.ok (), s2) →
      q.sequence = p.sequence + 1) := by
  refine ⟨?_, ?_, ?_⟩
  · intro env s p s2 h
    obtain ⟨h1, h2⟩ := send_ok_state env s p s2 h
    subst h2
    refine ⟨h1, ?_, ?_⟩
    · simp [setPacketCommitment, setNextSequenceSend, alookup_ainsert_self]
    · simp [setPacketCommitment, setNextSequenceSend, alookup_ainsert_self]
  · intro env s p ch conn cs n hv hch hcl hdp hdc hconn hcs hclient hlt hseq hne
    have hto : ¬ cs.latestHeight ≥ p.timeoutHeight := not_le.mpr hlt
    simp [sendPacket, hv, hch, hconn, hclient, hseq, hcl, hdp, hdc, hcs, hto, hne]
  · intro env env2 s p q s1 s2 hsp hsc h1 h2
    obtain ⟨_, hb⟩ := send_ok_state env s p s1 h1
    obtain ⟨hc, _⟩ := send_ok_state env2 s1 q s2 h2
    subst hb
    rw [hsp, hsc] at hc
    simp [setPacketCommitment, setNextSequenceSend, alookup_ainsert_self] at hc
    omega

/-- Witness for C3: the success conjunct at the concrete witness send. -/
theorem C3_witness :
    alookup sW.nextSeqSend ("portA", "chanA") = some 1 ∧
    alookup sW2.nextSeqSend ("portA", "chanA") = some 2 ∧
    alookup sW2.packetCommitments ("portA", "chanA", 1)
      = some (CommitPacket [7, 8]) :=
  C3_send_monotonicity.1 envW sW pW sW2 (by decide)

/-- Claim C4 (confirmed): PacketExecuted on an ORDERED channel requires a
next-receive counter (else SequenceReceiveNotFound) equal to the packet
sequence (else InvalidPacket, counter untouched) and increments it on
success; on an UNORDERED channel the next-receive counter is neither read
(the outcome is unchanged under any replacement of the counter store) nor
modified; no other lifecycle operation ever changes the receive counters. -/
theorem C4_executed_order_enforcement :
    (∀ s p a ch,
      alookup s.channels (p.destinationPort, p.destinationChannel) = some ch →
      ch.state = OPEN → ch.ordering = ORDERED →
      alookup s.nextSeqRecv (p.destinationPort, p.destinationChannel) = none →
      (packetExecuted s p a).1 = Outcome.err Err.sequenceReceiveNotFound) ∧
    (∀ s p a ch n,
      alookup s.channels (p.destinationPort, p.destinationChannel) = some ch →
      ch.state = OPEN → ch.ordering = ORDERED →
      alookup s.nextSeqRecv (p.destinationPort, p.destinationChannel) = some n →
      p.sequence ≠ n →
      (packetExecuted s p a).1 = Outcome.err Err.invalidPacket ∧
      (packetExecuted s p a).2.nextSeqRecv = s.nextSeqRecv) ∧
    (∀ s p a ch s2,
      alookup s.channels (p.destinationPort, p.destinationChannel) = some ch →
      ch.ordering = ORDERED →
      packetExecuted s p a = (Outcome.ok (), s2) →
      alookup s.nextSeqRecv (p.destinationPort, p.destinationChannel)
        = some p.sequence ∧
      alookup s2.nextSeqRecv (p.destinationPort, p.destinationChannel)
        = some (p.sequence + 1)) ∧
    (∀ s p a ch,
      alookup s.channels (p.destinationPort, p.destinationChannel) = some ch →
      ch.ordering = UNORDERED →
      (packetExecuted s p a).2.nextSeqRecv = s.nextSeqRecv ∧
      ∀ l, (packetExecuted { s with nextSeqRecv := l } p a).1
        = (packetExecuted s p a).1) ∧
    (∀ env s p, (sendPacket env s p).2.nextSeqRecv = s.nextSeqRecv) ∧
    (∀ env s p pf ph, (recvPacket env s p pf ph).2.nextSeqRecv = s.nextSeqRecv) ∧
    (∀ env s p a pf ph,
      (acknowledgePacket env s p a pf ph).2.nextSeqRecv = s.nextSeqRecv) ∧
    (∀ env s p pf ph nsr ack,
      (cleanupPacket env s p pf ph nsr ack).2.nextSeqRecv = s.nextSeqRecv) := by
  refine ⟨?_, ?_, ?_, ?_, ?_, ?_, ?_, ?_⟩
  · intro s p a ch hch hopen hord hnone
    simp [packetExecuted, hch, hopen, hord, execWriteAck_nextSeqRecv, hnone]
  · intro s p a ch n hch hopen hord hsome hne
    simp [packetExecuted, hch, hopen, hord, execWriteAck_nextSeqRecv, hsome, hne]
  · intro s p a ch s2 hch hord h
    exact exec_ok_ordered_spec s p a ch s2 hch hord h
  · intro s p a ch hch hord
    have hord2 : ch.ordering ≠ ORDERED := by
      rw [hord]
      simp [UNORDERED, ORDERED]
    constructor
    · by_cases hst : ch.state = OPEN
      · simp [packetExecuted, hch, hord2, hst, execWriteAck_nextSeqRecv]
      · simp [packetExecuted, hch, hord2, hst]
    · intro l
      by_cases hst : ch.state = OPEN
      · simp [packetExecuted, hch, hord2, hst]
      · simp [packetExecuted, hch, hord2, hst]
  · intro env s p
    exact send_nextSeqRecv_frame env s p
  · intro env s p pf ph
    rw [recv_state_frame]
  · intro env s p a pf ph
    rw [ack_state_frame]
  · intro env s p pf ph nsr ack
    exact cleanup_nextSeqRecv_frame env s p pf ph nsr ack

/-- Witness for C4: the success conjunct at a concrete ORDERED Executed. -/
theorem C4_witness :
    alookup sExeOk.nextSeqRecv ("portB", "chanB") = some 1 ∧
    alookup sExeOk2.nextSeqRecv ("portB", "chanB") = some 2 :=
  C4_executed_order_enforcement.2.2.1 sExeOk pW (some [1]) chanW sExeOk2
    (by decide) (by decide) (by decide)

/-- Claim C5 (confirmed): AcknowledgePacket and CleanupPacket fail with
InvalidPacket whenever the stored send-side commitment does not equal the
digest recomputed from the supplied packet data; after a successful
CleanupPacket deleted the commitment, a second CleanupPacket with the same
packet fails with InvalidPacket. -/
theorem C5_at_most_once :
    (∀ env s p a pf ph ch conn,
      alookup s.channels (p.sourcePort, p.sourceChannel) = some ch →
      ch.state = OPEN →
      p.destinationPort = ch.counterparty.portID →
      p.destinationChannel = ch.counterparty.channelID →
      env.connections (hop0 ch.connectionHops) = some conn →
      conn.state = ConnOPEN →
      (alookup s.packetCommitments
        (p.sourcePort, p.sourceChannel, p.sequence)).getD []
        ≠ CommitPacket p.data →
      acknowledgePacket env s p a pf ph = (Outcome.err Err.invalidPacket, s)) ∧
    (∀ env s p pf ph nsr ack ch conn,
      alookup s.channels (p.sourcePort, p.sourceChannel) = some ch →
      ch.state = OPEN →
      p.destinationPort = ch.counterparty.portID →
      p.destinationChannel = ch.counterparty.channelID →
      env.connections (hop0 ch.connectionHops) = some conn →
      p.sequence < nsr →
      (alookup s.packetCommitments
        (p.sourcePort, p.sourceChannel, p.sequence)).getD []
        ≠ CommitPacket p.data →
      cleanupPacket env s p pf ph nsr ack = (Outcome.err Err.invalidPacket, s)) ∧
    (∀ env s p pf ph nsr ack q s1 ch conn,
      alookup s.channels (p.sourcePort, p.sourceChannel) = some ch →
      ch.state = OPEN →
      p.destinationPort = ch.counterparty.portID →
      p.destinationChannel = ch.counterparty.channelID →
      env.connections (hop0 ch.connectionHops) = some conn →
      cleanupPacket env s p pf ph nsr ack = (Outcome.ok q, s1) →
      ∀ pf2 ph2 nsr2 ack2,
        (cleanupPacket env s1 p pf2 ph2 nsr2 ack2).1
          = Outcome.err Err.invalidPacket) := by
  refine ⟨?_, ?_, ?_⟩
  · intro env s p a pf ph ch conn hch hopen hdp hdc hconn hcs hmis
    simp [acknowledgePacket, hch, hopen, hdp, hdc, hconn, hcs, hmis]
  · intro env s p pf ph nsr ack ch conn hch hopen hdp hdc hconn hlt hmis
    have hn : ¬ nsr ≤ p.sequence := not_le.mpr hlt
    simp [cleanupPacket, hch, hopen, hdp, hdc, hconn, hn, hmis]
  · intro env s p pf ph nsr ack q s1 ch conn hch hopen hdp hdc hconn hok
    intro pf2 ph2 nsr2 ack2
    obtain ⟨_, hs1⟩ := cleanup_ok_state env s p pf ph nsr ack q s1 hok
    subst hs1
    unfold cleanupPacket
    simp only [deletePacketCommitment_channels, hch]
    simp only [deletePacketCommitment, hopen, hdp, hdc, hconn]
    simp [alookup_aerase_self, CommitPacket]

/-- Witness for C5: the double-cleanup conjunct at a concrete state. -/
theorem C5_witness :
    (cleanupPacket envW (deletePacketCommitment sAck "portA" "chanA" 1) pW
      [] 0 2 []).1 = Outcome.err Err.invalidPacket :=
  C5_at_most_once.2.2 envW sAck pW [] 0 2 [] pW
    (deletePacketCommitment sAck "portA" "chanA" 1) chanW connW
    (by decide) (by decide) (by decide) (by decide) (by decide) (by decide)
    [] 0 2 []

/-- Claim C6 (confirmed): CleanupPacket fails with InvalidPacket and deletes
nothing when the supplied next_sequence_recv is not strictly greater than
the packet sequence; on success the send-side commitment at (source port,
source channel, sequence) is deleted and nothing else changes. -/
theorem C6_cleanup_guard :
    (∀ env s p pf ph nsr ack ch conn,
      alookup s.channels (p.sourcePort, p.sourceChannel) = some ch →
      ch.state = OPEN →
      p.destinationPort = ch.counterparty.portID →
      p.destinationChannel = ch.counterparty.channelID →
      env.connections (hop0 ch.connectionHops) = some conn →
      nsr ≤ p.sequence →
      cleanupPacket env s p pf ph nsr ack = (Outcome.err Err.invalidPacket, s)) ∧
    (∀ env s p pf ph nsr ack q s1,
      cleanupPacket env s p pf ph nsr ack = (Outcome.ok q, s1) →
      s1.channels = s.channels ∧ s1.nextSeqSend = s.nextSeqSend ∧
      s1.nextSeqRecv = s.nextSeqRecv ∧ s1.ackCommitments = s.ackCommitments ∧
      s1.packetCommitments
        = aerase s.packetCommitments (p.sourcePort, p.sourceChannel, p.sequence) ∧
      alookup s1.packetCommitments (p.sourcePort, p.sourceChannel, p.sequence)
        = none) := by
  constructor
  · intro env s p pf ph nsr ack ch conn hch hopen hdp hdc hconn hle
    simp [cleanupPacket, hch, hopen, hdp, hdc, hconn, hle]
  · intro env s p pf ph nsr ack q s1 h
    obtain ⟨hq, hs1⟩ := cleanup_ok_state env s p pf ph nsr ack q s1 h
    subst hs1
    refine ⟨rfl, rfl, rfl, rfl, rfl, ?_⟩
    simp [deletePacketCommitment, alookup_aerase_self]

/-- Witness for C6: the guard conjunct at a concrete cleanup call whose
next_sequence_recv equals the packet sequence. -/
theorem C6_witness :
    cleanupPacket envW sAck pW [] 0 1 [] = (Outcome.err Err.invalidPacket, sAck) :=
  C6_cleanup_guard.1 envW sAck pW [] 0 1 [] chanW connW
    (by decide) (by decide) (by decide) (by decide) (by decide) (by decide)

/-- Claim C7 (confirmed): SendPacket fails with PacketTimeout whenever the
destination client's latest height is at least the packet's timeout height,
and RecvPacket fails with PacketTimeout whenever the current block height is
at least the timeout height; with a strictly smaller height neither
operation can return PacketTimeout. -/
theorem C7_timeout_guards :
    (∀ env s p ch conn cs,
      p.validBasic = none →
      alookup s.channels (p.sourcePort, p.sourceChannel) = some ch →
      ch.state ≠ CLOSED →
      p.destinationPort = ch.counterparty.portID →
      p.destinationChannel = ch.counterparty.channelID →
      env.connections (hop0 ch.connectionHops) = some conn →
      conn.state ≠ ConnUNINITIALIZED →
      env.clientStates conn.clientID = some cs →
      p.timeoutHeight ≤ cs.latestHeight →
      sendPacket env s p = (Outcome.err Err.packetTimeout, s)) ∧
    (∀ env s p ch conn cs,
      p.validBasic = none →
      alookup s.channels (p.sourcePort, p.sourceChannel) = some ch →
      ch.state ≠ CLOSED →
      p.destinationPort = ch.counterparty.portID →
      p.destinationChannel = ch.counterparty.channelID →
      env.connections (hop0 ch.connectionHops) = some conn →
      conn.state ≠ ConnUNINITIALIZED →
      env.clientStates conn.clientID = some cs →
      cs.latestHeight < p.timeoutHeight →
      (sendPacket env s p).1 ≠ Outcome.err Err.packetTimeout) ∧
    (∀ env s p pf ph ch conn,
      alookup s.channels (p.destinationPort, p.destinationChannel) = some ch →
      ch.state = OPEN →
      p.sourcePort = ch.counterparty.portID →
      p.sourceChannel = ch.counterparty.channelID →
      env.connections (hop0 ch.connectionHops) = some conn →
      conn.state = ConnOPEN →
      p.timeoutHeight ≤ env.blockHeight →
      recvPacket env s p pf ph = (Outcome.err Err.packetTimeout, s)) ∧
    (∀ env s p pf ph ch conn,
      alookup s.channels (p.destinationPort, p.destinationChannel) = some ch →
      ch.state = OPEN →
      p.sourcePort = ch.counterparty.portID →
      p.sourceChannel = ch.counterparty.channelID →
      env.connections (hop0 ch.connectionHops) = some conn →
      conn.state = ConnOPEN →
      env.blockHeight < p.timeoutHeight →
      (recvPacket env s p pf ph).1 ≠ Outcome.err Err.packetTimeout) := by
  refine ⟨?_, ?_, ?_, ?_⟩
  · intro env s p ch conn cs hv hch hcl hdp hdc hconn hcs hclient hle
    simp [sendPacket, hv, hch, hcl, hdp, hdc, hconn, hcs, hclient, hle]
  · intro env s p ch conn cs hv hch hcl hdp hdc hconn hcs hclient hlt hbad
    have hto : ¬ cs.latestHeight ≥ p.timeoutHeight := not_le.mpr hlt
    simp [sendPacket, hv, hch, hcl, hdp, hdc, hconn, hcs, hclient, hto] at hbad
    repeat' split at hbad
    all_goals simp_all
  · intro env s p pf ph ch conn hch hopen hsp hsc hconn hcs hle
    simp [recvPacket, hch, hopen, hsp, hsc, hconn, hcs, hle]
  · intro env s p pf ph ch conn hch hopen hsp hsc hconn hcs hlt hbad
    have hto : ¬ env.blockHeight ≥ p.timeoutHeight := not_le.mpr hlt
    simp [recvPacket, hch, hopen, hsp, hsc, hconn, hcs, hto] at hbad
    repeat' split at hbad
    all_goals simp_all

/-- Witness for C7: the Send timeout conjunct at a packet whose timeout
height 3 is below the client's latest height 5. -/
theorem C7_witness :
    sendPacket envW sW pLate = (Outcome.err Err.packetTimeout, sW) :=
  C7_timeout_guards.1 envW sW pLate chanW connW { latestHeight := 5 }
    (by decide) (by decide) (by decide) (by decide) (by decide) (by decide)
    (by decide) (by decide) (by decide)

/-- Claim C8 (confirmed): RecvPacket and AcknowledgePacket never mutate the
state, whatever the outcome, and on success each returns the input packet
unchanged. -/
theorem C8_read_only :
    (∀ env s p pf ph, (recvPacket env s p pf ph).2 = s) ∧
    (∀ env s p a pf ph, (acknowledgePacket env s p a pf ph).2 = s) ∧
    (∀ env s p pf ph q s2,
      recvPacket env s p pf ph = (Outcome.ok q, s2) → q = p) ∧
    (∀ env s p a pf ph q s2,
      acknowledgePacket env s p a pf ph = (Outcome.ok q, s2) → q = p) := by
  refine ⟨?_, ?_, ?_, ?_⟩
  · intro env s p pf ph
    exact recv_state_frame env s p pf ph
  · intro env s p a pf ph
    exact ack_state_frame env s p a pf ph
  · intro env s p pf ph q s2 h
    unfold recvPacket at h
    repeat' split at h
    all_goals injection h with h1 h2
    all_goals try simp at h1
    exact h1.symm
  · intro env s p a pf ph q s2 h
    unfold acknowledgePacket at h
    repeat' split at h
    all_goals injection h with h1 h2
    all_goals try simp at h1
    exact h1.symm

/-- Channel registered at the destination key whose counterparty is the
witness packet's source, so RecvPacket accepts it. -/
def chanRecv : Channel :=
  { chanW with counterparty := { portID := "portA", channelID := "chanA" } }

/-- Receive-side state for the C8 witness. -/
def sRecv : KState :=
  { channels := [(("portB", "chanB"), chanRecv)], nextSeqSend := [],
    nextSeqRecv := [], packetCommitments := [], ackCommitments := [] }

/-- Witness for C8: the Recv success conjunct at a concrete verified
receive, which returns the input packet unchanged. -/
theorem C8_witness : pW = pW :=
  C8_read_only.2.2.1 envW sRecv pW [] 0 pW sRecv (by decide)

/-- Claim C9 (confirmed): in CleanupPacket, once the preceding checks passed,
a channel ordering outside the enum reaches the dispatch default branch and
panics with InvalidChannelOrdering rather than returning a recoverable
error; and Channel.ValidateBasic only accepts orderings inside the enum, so
the branch is unreachable for well-formed channels. -/
theorem C9_ordering_dispatch :
    (∀ env s p pf ph nsr ack ch conn,
      alookup s.channels (p.sourcePort, p.sourceChannel) = some ch →
      ch.state = OPEN →
      p.destinationPort = ch.counterparty.portID →
      p.destinationChannel = ch.counterparty.channelID →
      env.connections (hop0 ch.connectionHops) = some conn →
      p.sequence < nsr →
      (alookup s.packetCommitments
        (p.sourcePort, p.sourceChannel, p.sequence)).getD []
        = CommitPacket p.data →
      ch.ordering ≠ ORDERED → ch.ordering ≠ UNORDERED →
      cleanupPacket env s p pf ph nsr ack
        = (Outcome.panicked (PanicKind.invalidChannelOrdering ch.ordering), s)) ∧
    (∀ ch, channelValidateBasic ch = none →
      ch.ordering = UNORDERED ∨ ch.ordering = ORDERED) := by
  constructor
  · intro env s p pf ph nsr ack ch conn hch hopen hdp hdc hconn hlt hcomm ho1 ho2
    have hn : ¬ nsr ≤ p.sequence := not_le.mpr hlt
    simp [cleanupPacket, hch, hopen, hdp, hdc, hconn, hn, hcomm, ho1, ho2]
  · intro ch h
    unfold channelValidateBasic at h
    repeat' split at h
    all_goals first
      | exact Option.noConfusion h
      | exact orderString_ne_empty ch.ordering (by assumption)

/-- Witness for C9: the panic conjunct at a channel whose ordering value 0
lies outside the enum. -/
theorem C9_witness :
    cleanupPacket envW sBad pW [] 0 2 []
      = (Outcome.panicked (PanicKind.invalidChannelOrdering 0), sBad) :=
  C9_ordering_dispatch.1 envW sBad pW [] 0 2 [] chanBad connW
    (by decide) (by decide) (by decide) (by decide) (by decide) (by decide)
    (by decide) (by decide) (by decide)

/-- Claim C10 (confirmed): an AcknowledgePacket call that passes the channel,
counterparty, connection and commitment checks and carries a nil
acknowledgement panics (nil dereference at the GetBytes call used for
verification); no guard rejects the nil acknowledgement with a recoverable
error. -/
theorem C10_nil_ack_panics (env : Env) (s : KState) (p : Packet)
    (pf : List Nat) (ph : Nat) (ch : Channel) (conn : ConnectionEnd)
    (hch : alookup s.channels (p.sourcePort, p.sourceChannel) = some ch)
    (hopen : ch.state = OPEN)
    (hdp : p.destinationPort = ch.counterparty.portID)
    (hdc : p.destinationChannel = ch.counterparty.channelID)
    (hconn : env.connections (hop0 ch.connectionHops) = some conn)
    (hcs : conn.state = ConnOPEN)
    (hcomm : (alookup s.packetCommitments
      (p.sourcePort, p.sourceChannel, p.sequence)).getD []
      = CommitPacket p.data) :
    acknowledgePacket env s p none pf ph
      = (Outcome.panicked PanicKind.nilAcknowledgement, s) := by
  simp [acknowledgePacket, hch, hopen, hdp, hdc, hconn, hcs, hcomm]

/-- Witness for C10: the concrete nil-acknowledgement call panics. -/
theorem C10_witness :
    acknowledgePacket envW sAck pW none [] 0
      = (Outcome.panicked PanicKind.nilAcknowledgement, sAck) :=
  C10_nil_ack_panics envW sAck pW [] 0 chanW connW
    (by decide) (by decide) (by decide) (by decide) (by decide) (by decide)
    (by decide)

end IBC
